import Mathlib

/-
Verification development for the `datatables` Python package
(src/datatables/__init__.py): a server-side adapter that decodes the flat
bracket-encoded request parameters of the DataTables widget, builds a query
through registered search/order hooks, and serialises a page of records.

The embedding below translates the module function by function.  Python
machine-level details are modelled as follows:
  * `dict` objects become insertion-ordered association lists; assignment
    is replace-in-place-or-append, as in CPython.
  * decoded parameter leaves (`str`, `int`, `bool`) become the `Leaf` type.
  * exceptions become `Except` values; `DataTablesError` (the only class
    caught by `DataTable.json`) is kept in a separate layer `PipeErr.dt`
    so that the `try/except DataTablesError` in `json` is exact.
  * the SQLAlchemy query object is an external collaborator; it is modelled
    per the spec interface (join / count / order_by / slice / all) as a list
    of records plus the recorded join and ORDER BY instructions.  `count`
    and `all` look only at the rows; `slice a b` is the window `[a, b)` of
    the row list (sequence-slice clamping for out-of-range bounds).
-/

/-- A decoded parameter leaf value: Python `str`, `int` or `bool`. -/
inductive Leaf where
  | str (s : String)
  | int (n : Int)
  | bool (b : Bool)
deriving DecidableEq

/-- Value stored under a field name of one decoded column/order entry:
either a leaf or a one-level sub-mapping (e.g. the `search` dict). -/
inductive CVal where
  | leaf (l : Leaf)
  | sub (m : List (String × Leaf))
deriving DecidableEq

/-- Key of the dictionary returned by `query_into_dict`: unindexed entries
are stored under their field-name string, indexed entries under the Python
`int(column_id)`.  (Python `str` and `int` keys never collide.) -/
inductive QKey where
  | s (k : String)
  | i (n : Int)
deriving DecidableEq, BEq

/-- Value of one top-level entry of the decoded dictionary: a leaf for
unindexed entries, a field mapping for indexed entries. -/
inductive DVal where
  | leaf (l : Leaf)
  | cmap (m : List (String × CVal))
deriving DecidableEq

/-- Result of `query_into_dict`: the insertion-ordered decoded dictionary. -/
abbrev Decoded := List (QKey × DVal)

/-- Python exceptions other than `DataTablesError`. -/
inductive PyErr where
  | keyError (k : String)
  | typeError (msg : String)
  | valueError (msg : String)
  | unboundLocal (name : String)
  | attributeError (name : String)
deriving DecidableEq

/-- Error layer of the response pipeline: `dt` is a `DataTablesError`
(caught by `DataTable.json`), `py` is any other exception (propagates). -/
inductive PipeErr where
  | dt (msg : String)
  | py (e : PyErr)
deriving DecidableEq

/-- Python dict assignment `m[k] = v`: replace the value at the first
occurrence of `k`, keeping its position, else append at the end. -/
def setEntry {α β : Type} [BEq α] : List (α × β) → α → β → List (α × β)
  | [], k, v => [(k, v)]
  | (k', v') :: rest, k, v =>
    if k' == k then (k', v) :: rest else (k', v') :: setEntry rest k v

/-- Fold over a list in the `Except` monad, stopping at the first error
(models a Python `for` loop whose body may raise). -/
def foldExcept {ε σ α : Type} (f : σ → α → Except ε σ) : σ → List α → Except ε σ
  | s, [] => .ok s
  | s, a :: as =>
    match f s a with
    | .error e => .error e
    | .ok s' => foldExcept f s' as

/-- Map over a list in the `Except` monad (models a Python list
comprehension whose body may raise). -/
def mapExcept {ε α β : Type} (f : α → Except ε β) : List α → Except ε (List β)
  | [] => .ok []
  | a :: as =>
    match f a with
    | .error e => .error e
    | .ok b =>
      match mapExcept f as with
      | .error e => .error e
      | .ok bs => .ok (b :: bs)

/-- Numeric value of a list of decimal digit characters. -/
def digitsToNat (cs : List Char) : Nat :=
  cs.foldl (fun a c => a * 10 + (c.toNat - 48)) 0

/-- Python `str.strip()` on the character list: drop whitespace from both
ends. -/
def pyStrip (cs : List Char) : List Char :=
  ((cs.dropWhile Char.isWhitespace).reverse.dropWhile Char.isWhitespace).reverse

/-- Python `int(s)` on a string: optional surrounding whitespace, optional
single sign, then decimal digits; `none` models the `ValueError`.
(Digit-group underscores and non-ASCII digits are not modelled.) -/
def pyInt (s : String) : Option Int :=
  match pyStrip s.data with
  | [] => none
  | '+' :: rest =>
    if rest.isEmpty then none
    else if rest.all Char.isDigit then some (digitsToNat rest) else none
  | '-' :: rest =>
    if rest.isEmpty then none
    else if rest.all Char.isDigit then some (-(digitsToNat rest : Int)) else none
  | cs =>
    if cs.all Char.isDigit then some (digitsToNat cs) else none

/-- `BOOLEAN_FIELDS` from the module. -/
def BOOLEAN_FIELDS : List String :=
  ["search.regex", "searchable", "orderable", "regex"]

/-- `DataTable.coerce_value`: boolean fields compare against the literal
string "true"; everything else attempts `int(value)` and keeps the string
on `ValueError`. -/
def coerce_value (key value : String) : Leaf :=
  if BOOLEAN_FIELDS.contains key then Leaf.bool (value == "true")
  else
    match pyInt value with
    | some n => Leaf.int n
    | none => Leaf.str value

/-- Is this character in the regex class `\w` (ASCII)? -/
def isWordChar (c : Char) : Bool :=
  c.isAlphanum || c == '_'

/-- Parse `[tok]` at the head of the character list, where `tok` is a
nonempty run of characters satisfying `p` (the run is maximal, which is
exactly what the regex `\[(\d+)\]` / `\[(\w+)\]` groups accept since the
character after the run must be the closing bracket). -/
def parseBracket (p : Char → Bool) : List Char → Option (List Char × List Char)
  | '[' :: rest =>
    match rest.span p with
    | (tok, ']' :: rest') => if tok.isEmpty then none else some (tok, rest')
    | _ => none
  | _ => none

/-- The no-index alternative of the key pattern: `[word]` then optionally
`[word]`. -/
def parseKeyNoIndex (cs : List Char) : Option (Option Int × String × Option String) :=
  match parseBracket isWordChar cs with
  | none => none
  | some (w, r1) =>
    match parseBracket isWordChar r1 with
    | none => some (none, String.mk w, none)
    | some (w2, _) => some (none, String.mk w, some (String.mk w2))

/-- Strip a literal character-list prefix, returning the remainder. -/
def stripPrefixChars : List Char → List Char → Option (List Char)
  | [], cs => some cs
  | _ :: _, [] => none
  | p :: ps, c :: cs => if c == p then stripPrefixChars ps cs else none

/-- `re.match` of the pattern
`key_start(?:\[(\d+)\])?\[(\w+)\](?:\[(\w+)\])?` against a parameter name,
returning the three groups on success.  The optional index group is tried
greedily and dropped (regex backtracking) if the mandatory `\[(\w+)\]`
cannot match after it.  `re.match` anchors at the start only, so trailing
characters are ignored. -/
def parse_param_key (key_start param : String) : Option (Option Int × String × Option String) :=
  match stripPrefixChars key_start.data param.data with
  | none => none
  | some cs =>
    match parseBracket Char.isDigit cs with
    | none => parseKeyNoIndex cs
    | some (ds, r1) =>
      match parseBracket isWordChar r1 with
      | none => parseKeyNoIndex cs
      | some (w, r2) =>
        match parseBracket isWordChar r2 with
        | none => some (some (digitsToNat ds : Int), String.mk w, none)
        | some (w2, _) => some (some (digitsToNat ds : Int), String.mk w, some (String.mk w2))

/-- Body of the `for param, value in self.params.items()` loop of
`DataTable.query_into_dict`.  A parameter whose name does not match the
pattern contributes nothing.  Only the assignment of a two-level value
into an existing one-level leaf can raise (`TypeError`), mirroring
`returner[int(column_id)].setdefault(key, {})[optional_subkey] = ...`. -/
def decode_step (key_start : String) (acc : Decoded) (kv : String × String) : Except PyErr Decoded :=
  match parse_param_key key_start kv.1 with
  | none => .ok acc
  | some (none, key, _) =>
    .ok (setEntry acc (QKey.s key) (DVal.leaf (coerce_value key kv.2)))
  | some (some cid, key, none) =>
    match List.lookup (QKey.i cid) acc with
    | some (DVal.leaf _) => .error (.typeError "value is not subscriptable")
    | some (DVal.cmap cm) =>
      .ok (setEntry acc (QKey.i cid) (DVal.cmap (setEntry cm key (CVal.leaf (coerce_value key kv.2)))))
    | none =>
      .ok (setEntry acc (QKey.i cid) (DVal.cmap [(key, CVal.leaf (coerce_value key kv.2))]))
  | some (some cid, key, some sub) =>
    let leaf := coerce_value (key ++ "." ++ sub) kv.2
    match List.lookup (QKey.i cid) acc with
    | some (DVal.leaf _) => .error (.typeError "value is not subscriptable")
    | some (DVal.cmap cm) =>
      match List.lookup key cm with
      | some (CVal.leaf _) => .error (.typeError "value is not subscriptable")
      | some (CVal.sub sm) =>
        .ok (setEntry acc (QKey.i cid) (DVal.cmap (setEntry cm key (CVal.sub (setEntry sm sub leaf)))))
      | none =>
        .ok (setEntry acc (QKey.i cid) (DVal.cmap (setEntry cm key (CVal.sub [(sub, leaf)]))))
    | none =>
      .ok (setEntry acc (QKey.i cid) (DVal.cmap [(key, CVal.sub [(sub, leaf)])]))

/-- `DataTable.query_into_dict`: scan the request parameters in order and
assemble the nested decoded dictionary for one key prefix. -/
def query_into_dict (params : List (String × String)) (key_start : String) : Except PyErr Decoded :=
  foldExcept (decode_step key_start) [] params

/-- A Python object as seen by the row projector: an instance with named
attributes, a plain string/int value, or a zero-argument routine (the
lazily computed value case of `get_value`). -/
inductive PyObj where
  | obj (fields : List (String × PyObj))
  | pstr (s : String)
  | pint (n : Int)
  | routine (f : Unit → PyObj)

/-- A model attribute as used by `get_column`: either a plain column of the
mapped table, or a relationship whose `property.mapper.entity` exposes the
related entity's own attributes. -/
inductive ModelCol where
  | field (id : String)
  | rel (id : String) (entity : List (String × ModelCol))

/-- The abstract queryable collaborator (spec section 6).  `count` and
`all` read the rows; `join` and `order_by` record the instruction issued
to the underlying source (their effect on row multiplicity and order is
the data source's business and never observed by the claims, which are
about counts and window lengths). -/
structure Queryable where
  rows : List PyObj
  joins : List String
  orderSpecs : List (ModelCol × Bool)

/-- `.count()` of the queryable. -/
def Queryable.count (q : Queryable) : Nat := q.rows.length

/-- `.all()` of the queryable. -/
def Queryable.all (q : Queryable) : List PyObj := q.rows

/-- `.join(name, aliased=True)` of the queryable. -/
def Queryable.join (q : Queryable) (rel : String) : Queryable :=
  { q with joins := q.joins ++ [rel] }

/-- `.order_by(col.desc() / col.asc())` of the queryable: appends one ORDER
BY instruction; `true` means descending. -/
def Queryable.order_by (q : Queryable) (c : ModelCol) (desc : Bool) : Queryable :=
  { q with orderSpecs := q.orderSpecs ++ [(c, desc)] }

/-- `.slice(start, stop)` of the queryable: the index window
`[start, stop)` over the rows with sequence-window clamping (negative
bounds clamp to the ends, per the spec's "restrict to the window
[start, start+length)"). -/
def Queryable.slice (q : Queryable) (start stop : Int) : Queryable :=
  { q with rows := (q.rows.take stop.toNat).drop start.toNat }

/-- The `DataColumn` namedtuple. -/
structure DataColumn where
  name : String
  model_name : String
  filter : Option (PyObj → PyObj)

/-- The `DataTable` instance state after `__init__`. -/
structure DataTable where
  params : List (String × String)
  model : List (String × ModelCol)
  query : Queryable
  data : List (String × (PyObj → PyObj))
  columns : List DataColumn
  columns_dict : List (String × DataColumn)
  search_func : Queryable → DVal → Queryable
  column_search_func : ModelCol → Queryable → String → Queryable

/-- Python truthiness of a decoded leaf (`""`, `0` and `False` are falsy). -/
def leafTruthy : Leaf → Bool
  | .str s => !(s == "")
  | .int n => !(n == 0)
  | .bool b => b

/-- Python truthiness of `dict.get`'s result on a column entry (`None`,
falsy leaves and empty dicts are falsy). -/
def cvOptTruthy : Option CVal → Bool
  | none => false
  | some (.leaf l) => leafTruthy l
  | some (.sub m) => !m.isEmpty

/-- Python truthiness of a top-level decoded value. -/
def dvalTruthy : DVal → Bool
  | .leaf l => leafTruthy l
  | .cmap m => !m.isEmpty

/-- Helper of `splitDot`: split the remaining characters at dots, with the
reversed current segment as accumulator. -/
def splitDotAux : List Char → List Char → List String
  | [], acc => [String.mk acc.reverse]
  | c :: cs, acc =>
    if c == '.' then String.mk acc.reverse :: splitDotAux cs []
    else splitDotAux cs (c :: acc)

/-- Python `s.split(".")`. -/
def splitDot (s : String) : List String :=
  splitDotAux s.data []

/-- Python `"." in s`. -/
def hasDot (s : String) : Bool :=
  s.data.any (fun c => c == '.')

/-- Python `str()` of a decoded leaf. -/
def pyStr : Leaf → String
  | .str s => s
  | .int n => toString n
  | .bool b => if b then "True" else "False"

/-- One column declaration handed to `DataTable.__init__`: a prebuilt
`DataColumn`, a 2-tuple whose second element is a string (`tup2s`) or a
callable (`tup2f`), a 3-tuple, a tuple of any other arity, or a bare
name. -/
inductive ColDecl where
  | dataColumn (d : DataColumn)
  | tup2s (name path : String)
  | tup2f (name : String) (f : PyObj → PyObj)
  | tup3 (name path : String) (f : Option (PyObj → PyObj))
  | tupOther
  | bare (name : String)

/-- The local variables of the `for col in columns` loop in `__init__`.
`filter_func` and `dvar` model the Python locals `filter_func` and `d`,
which the loop reads in some branches without having assigned them in that
iteration: `none` means "not yet bound" (UnboundLocalError on use). -/
structure InitAcc where
  columns : List DataColumn
  columns_dict : List (String × DataColumn)
  filter_func : Option (Option (PyObj → PyObj))
  dvar : Option DataColumn

/-- One iteration of the column-registration loop of `DataTable.__init__`,
translated branch by branch:
  * a prebuilt `DataColumn` is appended, and then `self.columns_dict[d.name] = d`
    runs with the *previous* iteration's `d` (unbound on the first);
  * a 3-tuple unpacks into `name, model_name, filter_func`;
  * a 2-tuple with non-callable second element unpacks into
    `name, model_name` and the following `DataColumn(..., filter=filter_func)`
    reads whatever `filter_func` currently holds (unbound if no 3-tuple
    came before);
  * a 2-tuple with callable second element evaluates
    `name, model_name = (col[0], col[0], col[1])`, a 3-tuple unpacked into
    two targets: `ValueError: too many values to unpack`;
  * any other tuple arity raises the explicit `ValueError`;
  * a bare name builds `DataColumn(name, name, None)`. -/
def init_step (acc : InitAcc) (col : ColDecl) : Except PyErr InitAcc :=
  match col with
  | .dataColumn c =>
    match acc.dvar with
    | none => .error (.unboundLocal "d")
    | some d =>
      .ok { acc with columns := acc.columns ++ [c],
                     columns_dict := setEntry acc.columns_dict d.name d }
  | .tup3 name path f =>
    let d : DataColumn := ⟨name, path, f⟩
    .ok { columns := acc.columns ++ [d],
          columns_dict := setEntry acc.columns_dict name d,
          filter_func := some f, dvar := some d }
  | .tup2s name path =>
    match acc.filter_func with
    | none => .error (.unboundLocal "filter_func")
    | some ff =>
      let d : DataColumn := ⟨name, path, ff⟩
      .ok { acc with columns := acc.columns ++ [d],
                     columns_dict := setEntry acc.columns_dict name d,
                     dvar := some d }
  | .tup2f _ _ => .error (.valueError "too many values to unpack (expected 2)")
  | .tupOther => .error (.valueError "Columns must be a tuple of 2 to 3 elements")
  | .bare s =>
    let d : DataColumn := ⟨s, s, none⟩
    .ok { acc with columns := acc.columns ++ [d],
                   columns_dict := setEntry acc.columns_dict s d,
                   dvar := some d }

/-- `DataTable.join_related_models`: join the first segment of every dotted
source path, once at construction. -/
def join_related_models (columns : List DataColumn) (q : Queryable) : Queryable :=
  columns.foldl
    (fun q c =>
      if hasDot c.model_name then q.join ((splitDot c.model_name).headD "")
      else q)
    q

/-- `DataTable.__init__`: run the registration loop, then the join
expansion; search hooks start as the identity lambdas of the source. -/
def DataTable_init (params : List (String × String)) (model : List (String × ModelCol))
    (query : Queryable) (cols : List ColDecl) : Except PyErr DataTable :=
  match foldExcept init_step ⟨[], [], none, none⟩ cols with
  | .error e => .error e
  | .ok acc =>
    .ok { params := params, model := model,
          query := join_related_models acc.columns query,
          data := [],
          columns := acc.columns, columns_dict := acc.columns_dict,
          search_func := fun qs _ => qs,
          column_search_func := fun _ qs _ => qs }

/-- `DataTable.searchable`: register the global search hook. -/
def DataTable.searchable (t : DataTable) (f : Queryable → DVal → Queryable) : DataTable :=
  { t with search_func := f }

/-- `DataTable.searchable_column`: register the per-column search hook. -/
def DataTable.searchable_column (t : DataTable) (f : ModelCol → Queryable → String → Queryable) : DataTable :=
  { t with column_search_func := f }

/-- `DataTable.add_data`: merge extra per-row computed fields. -/
def DataTable.add_data (t : DataTable) (kwargs : List (String × (PyObj → PyObj))) : DataTable :=
  { t with data := kwargs.foldl (fun m kv => setEntry m kv.1 kv.2) t.data }

/-- Python `getattr` on a record instance; anything but an instance
attribute lookup hit raises `AttributeError`. -/
def py_getattr (o : PyObj) (name : String) : Except PyErr PyObj :=
  match o with
  | .obj fields =>
    match List.lookup name fields with
    | some v => .ok v
    | none => .error (.attributeError name)
  | _ => .error (.attributeError name)

/-- The relation traversal of `get_value`: `getattr` along the given path
segments. -/
def traverse_path (parts : List String) (inst : PyObj) : Except PyErr PyObj :=
  foldExcept (fun o s => py_getattr o s) inst parts

/-- `value() if inspect.isroutine(value) else value`. -/
def call_if_routine : PyObj → PyObj
  | .routine f => f ()
  | v => v

/-- `DataTable.get_value`: traverse all but the last path segment, then use
the column's filter if present, else read the final attribute; finally
invoke zero-argument routines. -/
def get_value (key : DataColumn) (inst : PyObj) : Except PyErr PyObj :=
  let parts := splitDot key.model_name
  match traverse_path parts.dropLast inst with
  | .error e => .error e
  | .ok base =>
    match key.filter with
    | some f => .ok (call_if_routine (f base))
    | none =>
      match py_getattr base (parts.getLastD "") with
      | .error e => .error e
      | .ok v => .ok (call_if_routine v)

/-- `getattr` on the model or on a related entity's namespace. -/
def model_getattr (m : List (String × ModelCol)) (name : String) : Except PyErr ModelCol :=
  match List.lookup name m with
  | some c => .ok c
  | none => .error (.attributeError name)

/-- `DataTable.get_column`: resolve a registered column's dotted source
path to a queryable field, following `property.mapper.entity` across
relationships; a plain column has no mapper (`AttributeError`). -/
def get_column (model : List (String × ModelCol)) (column : DataColumn) : Except PyErr ModelCol :=
  let path := splitDot column.model_name
  match model_getattr model (path.headD "") with
  | .error e => .error e
  | .ok first =>
    foldExcept
      (fun mc part =>
        match mc with
        | .field _ => .error (.attributeError "property")
        | .rel _ ent => model_getattr ent part)
      first path.tail

/-- `DataTable.output_instance`: the projected row dictionary, plus the
`DT_RowData` sub-dict when extra data fields are registered. -/
def output_instance (t : DataTable) (inst : PyObj) : Except PyErr (List (String × PyObj)) :=
  match foldExcept
      (fun acc k =>
        match get_value k inst with
        | .error e => .error e
        | .ok v => .ok (setEntry acc k.name v))
      [] t.columns with
  | .error e => .error e
  | .ok base =>
    .ok (if t.data.isEmpty then base
         else setEntry base "DT_RowData" (PyObj.obj (t.data.map (fun kv => (kv.1, kv.2 inst)))))

/-- The dictionary key a decoded leaf denotes when used in
`columns.get(order["column"])`: Python hashes `True`/`False` like `1`/`0`,
so booleans land on the integer keys. -/
def leafToQKey : Leaf → QKey
  | .str s => QKey.s s
  | .int n => QKey.i n
  | .bool b => QKey.i (if b then 1 else 0)

/-- The response record (the non-error output shape). -/
structure Response where
  draw : Int
  recordsTotal : Nat
  recordsFiltered : Nat
  data : List (List (String × PyObj))

/-- What a call to `DataTable.json` does: return the full response, return
the `{"error": message}` degradation (and nothing else: no draw/data/count
keys), or let an exception propagate to the caller. -/
inductive JsonResult where
  | resp (r : Response)
  | errorResp (msg : String)
  | raised (e : PyErr)

/-- `DataTable.get_integer_param`: `int(self.params[name])` with `KeyError`
and `ValueError` converted into a `DataTablesError`. -/
def get_integer_param (params : List (String × String)) (name : String) : Except PipeErr Int :=
  match List.lookup name params with
  | none => .error (.dt ("Parameter " ++ name ++ " is missing or invalid"))
  | some v =>
    match pyInt v with
    | none => .error (.dt ("Parameter " ++ name ++ " is missing or invalid"))
    | some n => .ok n

/-- Embed a plain exception into the pipeline's error layer. -/
def liftPy {α : Type} : Except PyErr α → Except PipeErr α
  | .ok a => .ok a
  | .error e => .error (.py e)

/-- The global-search step of `_json`:
`if callable(self.search_func) and search.get("value"): query = self.search_func(query, search["value"])`.
The registered hook is a function in this model, so the `callable` test
holds. -/
def apply_global_search (t : DataTable) (search : Decoded) (q : Queryable) : Queryable :=
  match List.lookup (QKey.s "value") search with
  | none => q
  | some dv => if dvalTruthy dv then t.search_func q dv else q

/-- `self.columns_dict[column_data["data"]]`: fetch the `data` field of a
decoded column request and look it up in the registry.  A missing field, a
non-string value (the registry dict has only string keys) and an unknown
name raise `KeyError`; an unhashable dict value raises `TypeError`. -/
def data_column_lookup (cdict : List (String × DataColumn)) (cm : List (String × CVal)) :
    Except PyErr DataColumn :=
  match List.lookup "data" cm with
  | none => .error (.keyError "data")
  | some (CVal.sub _) => .error (.typeError "unhashable type: dict")
  | some (CVal.leaf (Leaf.str s)) =>
    match List.lookup s cdict with
    | none => .error (.keyError s)
    | some c => .ok c
  | some (CVal.leaf _) => .error (.keyError "data")

/-- One iteration of the per-column search loop of `_json`.  The body
first evaluates `column_data["search"]["value"]` (raising on a missing or
non-dict `search` entry), then checks `column_data.get("searchable")` and
the search value for truthiness (the registered hook is a function, so
`callable` holds), and only then resolves the column and applies the
hook with `str(search_value)`. -/
def process_column (t : DataTable) (q : Queryable) (column_data : DVal) : Except PyErr Queryable :=
  match column_data with
  | .leaf _ => .error (.typeError "value is not subscriptable")
  | .cmap cm =>
    match List.lookup "search" cm with
    | none => .error (.keyError "search")
    | some (CVal.leaf _) => .error (.typeError "value is not subscriptable")
    | some (CVal.sub sm) =>
      match List.lookup "value" sm with
      | none => .error (.keyError "value")
      | some sv =>
        if cvOptTruthy (List.lookup "searchable" cm) && leafTruthy sv then
          match data_column_lookup t.columns_dict cm with
          | .error e => .error e
          | .ok col =>
            match get_column t.model col with
            | .error e => .error e
            | .ok mc => .ok (t.column_search_func mc q (pyStr sv))
        else .ok q

/-- One iteration of the ordering loop of `_json`.  An order entry whose
`column` index is absent from the decoded columns is silently skipped;
an entry that is present and truthy but not a dict raises on `.get`;
otherwise `orderable` gates resolving the column and appending an ORDER BY
instruction, descending exactly when `order["dir"] == "desc"`. -/
def process_order (t : DataTable) (columns : Decoded) (q : Queryable) (order : DVal) :
    Except PyErr Queryable :=
  match order with
  | .leaf _ => .error (.typeError "value is not subscriptable")
  | .cmap om =>
    match List.lookup "column" om with
    | none => .error (.keyError "column")
    | some (CVal.sub _) => .error (.typeError "unhashable type: dict")
    | some (CVal.leaf l) =>
      match List.lookup (leafToQKey l) columns with
      | none => .ok q
      | some (DVal.leaf cl) =>
        if leafTruthy cl then .error (.attributeError "get") else .ok q
      | some (DVal.cmap cm) =>
        if !cm.isEmpty && cvOptTruthy (List.lookup "orderable" cm) then
          match data_column_lookup t.columns_dict cm with
          | .error e => .error e
          | .ok col =>
            match get_column t.model col with
            | .error e => .error e
            | .ok mc =>
              match List.lookup "dir" om with
              | none => .error (.keyError "dir")
              | some dv =>
                .ok (q.order_by mc (decide (dv = CVal.leaf (Leaf.str "desc"))))
        else .ok q

/-- The three query-shaping stages of `_json` in source order: global
search, the per-column search loop, the ordering loop. -/
def filtered_query (t : DataTable) (columns ordering search : Decoded) : Except PyErr Queryable :=
  (foldExcept (process_column t) (apply_global_search t search t.query) (columns.map Prod.snd)).bind
    (fun q => foldExcept (process_order t columns) q (ordering.map Prod.snd))

/-- `DataTable._json`: parse `draw`/`start`/`length`, decode the three
parameter families, shape the query, snapshot both counts, window the rows
when `length > 0`, and project every remaining record. -/
def DataTable._json (t : DataTable) : Except PipeErr Response :=
  (get_integer_param t.params "draw").bind fun draw =>
  (get_integer_param t.params "start").bind fun start =>
  (get_integer_param t.params "length").bind fun len =>
  (liftPy (query_into_dict t.params "columns")).bind fun columns =>
  (liftPy (query_into_dict t.params "order")).bind fun ordering =>
  (liftPy (query_into_dict t.params "search")).bind fun search =>
  (liftPy (filtered_query t columns ordering search)).bind fun query =>
  let query2 := if 0 < len then query.slice start (start + len) else query
  (liftPy (mapExcept (output_instance t) query2.all)).bind fun data =>
  .ok { draw := draw, recordsTotal := t.query.count,
        recordsFiltered := query.count, data := data }

/-- `DataTable.json`: `self._json()` with `DataTablesError` converted to
the `{"error": str(e)}` response; every other exception propagates. -/
def DataTable.json (t : DataTable) : JsonResult :=
  match DataTable._json t with
  | .ok r => .resp r
  | .error (.dt m) => .errorResp m
  | .error (.py e) => .raised e

/-- Fixture record with a single `name` attribute. -/
def recA : PyObj := PyObj.obj [("name", PyObj.pstr "x")]

/-- Second fixture record. -/
def recB : PyObj := PyObj.obj [("name", PyObj.pstr "y")]

/-- Third fixture record. -/
def recC : PyObj := PyObj.obj [("name", PyObj.pstr "z")]

/-- Fixture column `("name")`. -/
def nameCol : DataColumn := ⟨"name", "name", none⟩

/-- A concrete three-row table over the `name` column, with identity
search hooks, parameterised by the request parameters. -/
def fixtureTable (ps : List (String × String)) : DataTable :=
  { params := ps, model := [("name", ModelCol.field "name")],
    query := ⟨[recA, recB, recC], [], []⟩, data := [],
    columns := [nameCol], columns_dict := [("name", nameCol)],
    search_func := fun q _ => q, column_search_func := fun _ q _ => q }

/-- Fixture: no parameters at all. -/
def table0 : DataTable := fixtureTable []

/-- Fixture: only `draw` present. -/
def tableD : DataTable := fixtureTable [("draw", "1")]

/-- Fixture: `draw` and `start` present. -/
def tableDS : DataTable := fixtureTable [("draw", "1"), ("start", "0")]

/-- The projected fixture rows. -/
def rowA : List (String × PyObj) := [("name", PyObj.pstr "x")]

/-- Second projected fixture row. -/
def rowB : List (String × PyObj) := [("name", PyObj.pstr "y")]

/-- Third projected fixture row. -/
def rowC : List (String × PyObj) := [("name", PyObj.pstr "z")]

/-- Fixture request: positive window within bounds. -/
def c4tPos : DataTable := fixtureTable [("draw", "1"), ("start", "1"), ("length", "5")]

/-- Expected response for `c4tPos`. -/
def c4rPos : Response := ⟨1, 3, 3, [rowB, rowC]⟩

/-- Fixture request: non-positive length (no slicing). -/
def c4tAll : DataTable := fixtureTable [("draw", "1"), ("start", "7"), ("length", "-1")]

/-- Expected response for `c4tAll`. -/
def c4rAll : Response := ⟨1, 3, 3, [rowA, rowB, rowC]⟩

/-- Fixture request with a negative `start` and a positive `length`. -/
def c4tNeg : DataTable := fixtureTable [("draw", "1"), ("start", "-2"), ("length", "3")]

/-- Expected response for `c4tNeg`: the window `[-2, 1)` clamps to the
single row of index `0`. -/
def c4rNeg : Response := ⟨1, 3, 3, [rowA]⟩

/-- The four-parameter request family of the spec's decoding example. -/
def c6params : List (String × String) :=
  [("columns[0][data]", "name"), ("columns[0][searchable]", "true"),
   ("columns[0][search][value]", "foo"), ("columns[0][search][regex]", "false")]

/-- The nested mapping the spec's decoding example must produce. -/
def c6expected : Decoded :=
  [(QKey.i 0, DVal.cmap
      [("data", CVal.leaf (Leaf.str "name")),
       ("searchable", CVal.leaf (Leaf.bool true)),
       ("search", CVal.sub [("value", Leaf.str "foo"), ("regex", Leaf.bool false)])])]

/-- Fixture request pair for the ordering/pagination noninterference
claim: same searches, different order/start/length (and draw). -/
def c7t1 : DataTable := fixtureTable [("draw", "1"), ("start", "0"), ("length", "10")]

/-- Second request of the pair: different window and an order entry. -/
def c7t2 : DataTable :=
  fixtureTable [("draw", "2"), ("start", "1"), ("length", "2"),
                ("order[0][column]", "0"), ("order[0][dir]", "desc")]

/-- Expected response for `c7t1`. -/
def c7r1 : Response := ⟨1, 3, 3, [rowA, rowB, rowC]⟩

/-- Expected response for `c7t2`. -/
def c7r2 : Response := ⟨2, 3, 3, [rowB, rowC]⟩

/-- A decoded column request is "bad" for a registry when it is searchable
with a truthy search value but its `data` name has no registered column. -/
def bad_search_entry (cdict : List (String × DataColumn)) (dv : DVal) : Prop :=
  ∃ cm sm v ds, dv = DVal.cmap cm
    ∧ List.lookup "search" cm = some (CVal.sub sm)
    ∧ List.lookup "value" sm = some v
    ∧ leafTruthy v = true
    ∧ cvOptTruthy (List.lookup "searchable" cm) = true
    ∧ List.lookup "data" cm = some (CVal.leaf (Leaf.str ds))
    ∧ List.lookup ds cdict = none

/-- Fixture request whose column search names an unregistered column. -/
def c8t : DataTable :=
  fixtureTable [("draw", "1"), ("start", "0"), ("length", "10"),
                ("columns[0][data]", "ghost"), ("columns[0][searchable]", "true"),
                ("columns[0][search][value]", "foo")]

/-- The decoded `columns` family of `c8t`. -/
def c8cm : List (String × CVal) :=
  [("data", CVal.leaf (Leaf.str "ghost")),
   ("searchable", CVal.leaf (Leaf.bool true)),
   ("search", CVal.sub [("value", Leaf.str "foo")])]

/-- The decoded `columns` dictionary of `c8t`. -/
def c8cols : Decoded := [(QKey.i 0, DVal.cmap c8cm)]

/-- An empty queryable for concrete instantiations. -/
def emptyQ : Queryable := ⟨[], [], []⟩

/-- Column-request sub-dict fixture with search value `0`. -/
def c10sm : List (String × Leaf) := [("value", Leaf.int 0)]

/-- Column-request fixture with search value `0`. -/
def c10cm : List (String × CVal) :=
  [("search", CVal.sub c10sm),
   ("searchable", CVal.leaf (Leaf.bool true)),
   ("data", CVal.leaf (Leaf.str "name"))]

/-- Inversion of a successful `Except.bind`. -/
theorem bindE_ok {ε α β : Type} {x : Except ε α} {f : α → Except ε β} {b : β}
    (h : Except.bind x f = Except.ok b) : ∃ a, x = Except.ok a ∧ f a = Except.ok b := by
  cases x with
  | error e => exact absurd h (by simp [Except.bind])
  | ok a => exact ⟨a, rfl, by simpa [Except.bind] using h⟩

/-- A lifted computation succeeds exactly when the underlying one does. -/
theorem liftPy_ok {α : Type} {x : Except PyErr α} {a : α}
    (h : liftPy x = Except.ok a) : x = Except.ok a := by
  cases x with
  | error e => simp [liftPy] at h
  | ok b => simpa [liftPy] using h

/-- `mapExcept` preserves the length of the list on success. -/
theorem mapExcept_ok_length {ε α β : Type} (f : α → Except ε β) :
    ∀ (xs : List α) (ys : List β), mapExcept f xs = Except.ok ys → ys.length = xs.length := by
  intro xs
  induction xs with
  | nil => intro ys h; simp [mapExcept] at h; simp [← h]
  | cons a as ih =>
    intro ys h
    unfold mapExcept at h
    cases hfa : f a with
    | error e => rw [hfa] at h; cases h
    | ok b =>
      rw [hfa] at h
      cases hm : mapExcept f as with
      | error e => rw [hm] at h; cases h
      | ok bs =>
        rw [hm] at h
        cases h
        simp [ih bs hm]

/-- Pointwise-equal step functions fold identically. -/
theorem foldExcept_congr {ε σ α : Type} {f g : σ → α → Except ε σ}
    (hfg : ∀ s a, f s a = g s a) :
    ∀ (l : List α) (s : σ), foldExcept f s l = foldExcept g s l := by
  intro l
  induction l with
  | nil => intro s; rfl
  | cons a as ih =>
    intro s
    unfold foldExcept
    rw [hfg s a]
    cases g s a <;> simp [ih]

/-- An ordering-loop iteration that does not raise leaves the row set
untouched: it only appends ORDER BY instructions. -/
theorem process_order_rows (t : DataTable) (columns : Decoded) (q : Queryable) (o : DVal)
    (q' : Queryable) (h : process_order t columns q o = Except.ok q') : q'.rows = q.rows := by
  unfold process_order at h
  repeat' split at h
  all_goals try (injection h with h)
  all_goals try cases h
  all_goals rfl

/-- The whole ordering loop preserves the row set on success. -/
theorem order_fold_rows (t : DataTable) (columns : Decoded) :
    ∀ (l : List DVal) (q q' : Queryable),
      foldExcept (process_order t columns) q l = Except.ok q' → q'.rows = q.rows := by
  intro l
  induction l with
  | nil => intro q q' h; cases h; rfl
  | cons o os ih =>
    intro q q' h
    unfold foldExcept at h
    cases ho : process_order t columns q o with
    | error e => rw [ho] at h; cases h
    | ok q1 =>
      rw [ho] at h
      rw [ih q1 q' h]
      exact process_order_rows t columns q o q1 ho

/-- The per-column search step depends on the table only through its
registry, model and registered hook. -/
theorem process_column_congr (t1 t2 : DataTable)
    (hdict : t1.columns_dict = t2.columns_dict) (hmodel : t1.model = t2.model)
    (hcsf : t1.column_search_func = t2.column_search_func) :
    ∀ (q : Queryable) (cd : DVal), process_column t1 q cd = process_column t2 q cd := by
  intro q cd
  unfold process_column
  rw [hdict, hmodel, hcsf]

/-- A bad searchable column request makes its loop iteration raise. -/
theorem process_column_bad (t : DataTable) (q : Queryable) (dv : DVal)
    (h : bad_search_entry t.columns_dict dv) : ∃ e, process_column t q dv = Except.error e := by
  obtain ⟨cm, sm, v, ds, rfl, h1, h2, h3, h4, h5, h6⟩ := h
  refine ⟨PyErr.keyError ds, ?_⟩
  simp [process_column, data_column_lookup, h1, h2, h3, h4, h5, h6]

/-- If any column request in the loop is bad, the whole loop raises. -/
theorem col_fold_bad (t : DataTable) :
    ∀ (l : List DVal) (q : Queryable) (dv : DVal), dv ∈ l →
      bad_search_entry t.columns_dict dv →
      ∃ e, foldExcept (process_column t) q l = Except.error e := by
  intro l
  induction l with
  | nil => intro q dv h; exact absurd h (List.not_mem_nil dv)
  | cons a as ih =>
    intro q dv hmem hbad
    rcases List.mem_cons.mp hmem with rfl | hmem'
    · obtain ⟨e, he⟩ := process_column_bad t q dv hbad
      exact ⟨e, by simp [foldExcept, he]⟩
    · cases hpa : process_column t q a with
      | error e => exact ⟨e, by simp [foldExcept, hpa]⟩
      | ok q1 =>
        obtain ⟨e, he⟩ := ih q1 dv hmem' hbad
        exact ⟨e, by simp [foldExcept, hpa, he]⟩

/-- A missing or unparseable integer parameter makes `get_integer_param`
raise the `DataTablesError` with its fixed message. -/
theorem gip_missing (params : List (String × String)) (name : String)
    (h : (List.lookup name params).bind pyInt = none) :
    get_integer_param params name =
      Except.error (.dt ("Parameter " ++ name ++ " is missing or invalid")) := by
  unfold get_integer_param
  cases hl : List.lookup name params with
  | none => rfl
  | some v =>
    rw [hl] at h
    simp only [Option.some_bind] at h
    simp [h]

/-- A parameter whose name does not match the bracket pattern can be
removed from the request without changing the decoded dictionary. -/
theorem decode_skip (ks : String) (kv : String × String)
    (h : parse_param_key ks kv.1 = none) :
    ∀ (ps1 : List (String × String)) (acc : Decoded) (ps2 : List (String × String)),
      foldExcept (decode_step ks) acc (ps1 ++ kv :: ps2) =
        foldExcept (decode_step ks) acc (ps1 ++ ps2) := by
  intro ps1
  induction ps1 with
  | nil =>
    intro acc ps2
    simp only [List.nil_append, foldExcept]
    have : decode_step ks acc kv = Except.ok acc := by
      unfold decode_step; rw [h]
    rw [this]
  | cons p ps1' ih =>
    intro acc ps2
    simp only [List.cons_append, foldExcept]
    cases hp : decode_step ks acc p <;> simp [ih]

/-- C1: a column declared as a 2-element tuple `(name, f)` with `f`
invokable does NOT register `(name, name, f)`: the conditional expression
in `__init__` produces a 3-tuple that is unpacked into the two targets
`name, model_name`, so construction raises
`ValueError: too many values to unpack (expected 2)`.  This contradicts
the spec's shape (c) and its testable property; the conditional's intent
(defaulting `sourcePath` to `name`) is clear, so this is a code bug. -/
theorem c1_bug (params : List (String × String)) (model : List (String × ModelCol))
    (q : Queryable) (n : String) (f : PyObj → PyObj) :
    DataTable_init params model q [ColDecl.tup2f n f] =
      Except.error (.valueError "too many values to unpack (expected 2)") := rfl

/-- C2: a column declared as a non-callable 2-element tuple
`(name, sourcePath)` is NOT registered filter-free regardless of context:
the branch never assigns the local `filter_func`, so a lone such column
raises `UnboundLocalError` (first conjunct), and after a 3-tuple column
the 2-tuple column silently inherits the 3-tuple's filter (second
conjunct).  The spec's shape (b) is the clear intent; the code is a slip. -/
theorem c2_bug (params : List (String × String)) (model : List (String × ModelCol))
    (q : Queryable) :
    (∀ n path : String,
      DataTable_init params model q [ColDecl.tup2s n path] =
        Except.error (.unboundLocal "filter_func"))
    ∧ ∀ f : PyObj → PyObj,
        (DataTable_init params model q
            [ColDecl.tup3 "a" "pa" (some f), ColDecl.tup2s "b" "pb"]).map
          (fun t => t.columns) =
          Except.ok [⟨"a", "pa", some f⟩, ⟨"b", "pb", some f⟩] :=
  ⟨fun _ _ => rfl, fun _ => rfl⟩

/-- C9: for a column with a registered filter, the projected value is the
filter applied to the record traversed along all but the last source-path
segment (then normalised through the zero-argument-routine call); the
final segment's attribute is never read, as the right-hand side depends
only on the traversal prefix and the filter. -/
theorem c9_thm (n path : String) (f : PyObj → PyObj) (inst : PyObj) :
    get_value ⟨n, path, some f⟩ inst =
      (traverse_path (splitDot path).dropLast inst).map
        (fun base => call_if_routine (f base)) := by
  unfold get_value
  cases h : traverse_path (splitDot path).dropLast inst <;> simp [h, Except.map]

/-- C5: leaf coercion checks the reserved boolean field names first —
there the result is `true` exactly for the literal string `"true"`
(anything else, including `"True"` and `"1"`, gives `false`) and is never
an integer — and only for the other field names attempts an integer
parse, keeping the original string when the parse fails. -/
theorem c5_thm (k v : String) :
    ((k = "search.regex" ∨ k = "searchable" ∨ k = "orderable" ∨ k = "regex") →
      (coerce_value k v = Leaf.bool true ↔ v = "true")
      ∧ (v ≠ "true" → coerce_value k v = Leaf.bool false)
      ∧ ∀ n : Int, coerce_value k v ≠ Leaf.int n)
    ∧ ((k ≠ "search.regex" ∧ k ≠ "searchable" ∧ k ≠ "orderable" ∧ k ≠ "regex") →
      coerce_value k v =
        (match pyInt v with
          | some n => Leaf.int n
          | none => Leaf.str v)) := by
  constructor
  · intro hk
    have hc : BOOLEAN_FIELDS.contains k = true := by
      rcases hk with rfl | rfl | rfl | rfl <;> rfl
    unfold coerce_value
    rw [hc]
    refine ⟨?_, ?_, ?_⟩
    · simp
    · intro hne
      simp [beq_eq_false_iff_ne, hne]
    · intro n h
      cases h
  · rintro ⟨h1, h2, h3, h4⟩
    have hc : BOOLEAN_FIELDS.contains k = false := by
      simp [BOOLEAN_FIELDS, List.contains, h1, h2, h3, h4]
    unfold coerce_value
    rw [hc]
    simp

/-- C5 witness: boolean fields coerce `"True"` and `"1"` to `false` (never
to an integer), and a non-boolean field like `draw` parses `"5"` as the
integer `5`. -/
theorem c5_witness :
    (coerce_value "searchable" "True" = Leaf.bool false)
    ∧ (coerce_value "orderable" "1" = Leaf.bool false)
    ∧ (∀ n : Int, coerce_value "orderable" "1" ≠ Leaf.int n)
    ∧ (coerce_value "search.regex" "true" = Leaf.bool true)
    ∧ (coerce_value "draw" "5" = Leaf.int 5)
    ∧ (coerce_value "data" "name" = Leaf.str "name") := by
  refine ⟨?_, ?_, ?_, ?_, ?_, ?_⟩
  · exact ((c5_thm "searchable" "True").1 (Or.inr (Or.inl rfl))).2.1 (by decide)
  · exact ((c5_thm "orderable" "1").1 (Or.inr (Or.inr (Or.inl rfl)))).2.1 (by decide)
  · exact ((c5_thm "orderable" "1").1 (Or.inr (Or.inr (Or.inl rfl)))).2.2
  · exact ((c5_thm "search.regex" "true").1 (Or.inl rfl)).1.mpr rfl
  · exact ((c5_thm "draw" "5").2 (by refine ⟨?_, ?_, ?_, ?_⟩ <;> decide)).trans (by rfl)
  · exact ((c5_thm "data" "name").2 (by refine ⟨?_, ?_, ?_, ?_⟩ <;> decide)).trans (by rfl)

/-- C6: the spec's decoding example produces exactly the nested mapping
`{0: {data: "name", searchable: true, search: {value: "foo", regex:
false}}}` (the two two-level keys merge into the single `search`
sub-mapping), and any parameter whose key does not match the bracket
grammar contributes nothing to the decoded dictionary. -/
theorem c6_thm :
    query_into_dict c6params "columns" = Except.ok c6expected
    ∧ ∀ (ps1 ps2 : List (String × String)) (kv : String × String),
        parse_param_key "columns" kv.1 = none →
        query_into_dict (ps1 ++ kv :: ps2) "columns" =
          query_into_dict (ps1 ++ ps2) "columns" := by
  constructor
  · rfl
  · intro ps1 ps2 kv h
    unfold query_into_dict
    exact decode_skip "columns" kv h ps1 [] ps2

/-- C6 witness: appending the malformed key `columns[key` to the example
request leaves the decoded dictionary unchanged. -/
theorem c6_witness :
    query_into_dict (c6params ++ ("columns[key", "x") :: []) "columns" =
      query_into_dict (c6params ++ []) "columns" :=
  c6_thm.2 c6params [] ("columns[key", "x") rfl

/-- C3: if `draw` is missing or not integer-parseable, `json` returns the
bare error mapping (the `errorResp` constructor carries only the message:
no draw/data/recordsTotal/recordsFiltered are present) instead of
raising, and the same degradation holds for `start` and then `length`
with the corresponding message, in the source's checking order. -/
theorem c3_thm (t : DataTable) :
    ((List.lookup "draw" t.params).bind pyInt = none →
      DataTable.json t = JsonResult.errorResp "Parameter draw is missing or invalid")
    ∧ (∀ d : Int, get_integer_param t.params "draw" = Except.ok d →
        (List.lookup "start" t.params).bind pyInt = none →
        DataTable.json t = JsonResult.errorResp "Parameter start is missing or invalid")
    ∧ (∀ d s : Int, get_integer_param t.params "draw" = Except.ok d →
        get_integer_param t.params "start" = Except.ok s →
        (List.lookup "length" t.params).bind pyInt = none →
        DataTable.json t = JsonResult.errorResp "Parameter length is missing or invalid") := by
  refine ⟨?_, ?_, ?_⟩
  · intro h
    have hd := gip_missing t.params "draw" h
    unfold DataTable.json DataTable._json
    rw [hd]
    simp [Except.bind]
  · intro d hd h
    have hs := gip_missing t.params "start" h
    unfold DataTable.json DataTable._json
    rw [hd, hs]
    simp [Except.bind]
  · intro d s hd hs h
    have hl := gip_missing t.params "length" h
    unfold DataTable.json DataTable._json
    rw [hd, hs, hl]
    simp [Except.bind]

/-- C3 witness: concrete tables with `draw`, then `start`, then `length`
missing produce exactly the three error responses. -/
theorem c3_witness :
    DataTable.json table0 = JsonResult.errorResp "Parameter draw is missing or invalid"
    ∧ DataTable.json tableD = JsonResult.errorResp "Parameter start is missing or invalid"
    ∧ DataTable.json tableDS = JsonResult.errorResp "Parameter length is missing or invalid" :=
  ⟨(c3_thm table0).1 rfl,
   (c3_thm tableD).2.1 1 rfl rfl,
   (c3_thm tableDS).2.2 1 0 rfl rfl rfl⟩

/-- C10: a search value string that parses as the integer `0` (such as
`"0"`) is decoded to the integer `0` by leaf coercion (the `value` and
`search.value` field names are not boolean fields), and the pipeline's
truthiness tests treat it as empty: the global search hook is not applied
and a per-column search iteration leaves the query unchanged, despite the
client having sent a non-empty search string. -/
theorem c10_thm :
    (∀ v : String, pyInt v = some 0 →
      coerce_value "value" v = Leaf.int 0 ∧ coerce_value "search.value" v = Leaf.int 0)
    ∧ (∀ (t : DataTable) (search : Decoded) (q : Queryable),
        List.lookup (QKey.s "value") search = some (DVal.leaf (Leaf.int 0)) →
        apply_global_search t search q = q)
    ∧ (∀ (t : DataTable) (q : Queryable) (cm : List (String × CVal)) (sm : List (String × Leaf)),
        List.lookup "search" cm = some (CVal.sub sm) →
        List.lookup "value" sm = some (Leaf.int 0) →
        process_column t q (DVal.cmap cm) = Except.ok q) := by
  refine ⟨?_, ?_, ?_⟩
  · intro v hv
    constructor <;> simp [coerce_value, BOOLEAN_FIELDS, hv]
  · intro t search q h
    unfold apply_global_search
    rw [h]
    simp [dvalTruthy, leafTruthy]
  · intro t q cm sm h1 h2
    simp [process_column, h1, h2, leafTruthy]

/-- C10 witness: `"0"` decodes to the integer `0`, and concrete global and
per-column search stages with that decoded value leave the query alone. -/
theorem c10_witness :
    (coerce_value "value" "0" = Leaf.int 0 ∧ coerce_value "search.value" "0" = Leaf.int 0)
    ∧ apply_global_search table0 [(QKey.s "value", DVal.leaf (Leaf.int 0))] emptyQ = emptyQ
    ∧ process_column table0 emptyQ (DVal.cmap c10cm) = Except.ok emptyQ :=
  ⟨c10_thm.1 "0" rfl,
   c10_thm.2.1 table0 [(QKey.s "value", DVal.leaf (Leaf.int 0))] emptyQ rfl,
   c10_thm.2.2 table0 emptyQ c10cm c10sm rfl rfl⟩

/-- C4 (amended): for a successful response, if `length <= 0` the data
list has exactly `recordsFiltered` entries (no window applied), and if
`length > 0` and `start >= 0` its length is
`min(length, max(0, recordsFiltered - start))`.  The negative-`start`
restriction is forced by `c4_counterexample`. -/
theorem c4_thm (t : DataTable) (r : Response) (start len : Int)
    (hs : get_integer_param t.params "start" = Except.ok start)
    (hl : get_integer_param t.params "length" = Except.ok len)
    (hok : DataTable._json t = Except.ok r) :
    (len ≤ 0 → r.data.length = r.recordsFiltered)
    ∧ (0 < len → 0 ≤ start → (r.data.length : Int) =
        min len (max 0 ((r.recordsFiltered : Int) - start))) := by
  unfold DataTable._json at hok
  obtain ⟨d, hd, hok⟩ := bindE_ok hok
  obtain ⟨st, hst, hok⟩ := bindE_ok hok
  rw [hs] at hst
  injection hst with hst
  subst hst
  obtain ⟨ln, hln, hok⟩ := bindE_ok hok
  rw [hl] at hln
  injection hln with hln
  subst hln
  obtain ⟨cols, hcols, hok⟩ := bindE_ok hok
  obtain ⟨ords, hords, hok⟩ := bindE_ok hok
  obtain ⟨srch, hsrch, hok⟩ := bindE_ok hok
  obtain ⟨q, hq, hok⟩ := bindE_ok hok
  obtain ⟨data, hdata, hok⟩ := bindE_ok hok
  injection hok with hok
  subst hok
  have hlen := mapExcept_ok_length (output_instance t) _ _ (liftPy_ok hdata)
  constructor
  · intro hle
    rw [if_neg (by omega : ¬ 0 < len)] at hlen
    simpa [Queryable.all, Queryable.count] using hlen
  · intro hpos hnn
    rw [if_pos hpos] at hlen
    simp only [Queryable.all, Queryable.slice, Queryable.count,
      List.length_drop, List.length_take] at hlen ⊢
    omega

/-- C4 counterexample: with `start = -2`, `length = 3` and three filtered
rows, the returned data has 1 entry (the window `[-2, 1)` clamps to index
0) while the claim's formula demands
`min(3, max(0, 3 - (-2))) = 3`; so the unrestricted claim is false. -/
theorem c4_counterexample :
    ∃ r : Response, DataTable._json c4tNeg = Except.ok r
      ∧ get_integer_param c4tNeg.params "start" = Except.ok (-2)
      ∧ get_integer_param c4tNeg.params "length" = Except.ok 3
      ∧ r.recordsFiltered = 3 ∧ r.data.length = 1
      ∧ (r.data.length : Int) ≠ min 3 (max 0 ((r.recordsFiltered : Int) - (-2))) :=
  ⟨c4rNeg, rfl, rfl, rfl, rfl, rfl, by decide⟩

/-- C4 witness: a request with `start = 1`, `length = 5` over 3 filtered
rows returns `min(5, max(0, 3-1)) = 2` rows, and one with `length = -1`
returns all 3. -/
theorem c4_witness :
    ((c4rPos.data.length : Int) = min 5 (max 0 ((c4rPos.recordsFiltered : Int) - 1)))
    ∧ c4rAll.data.length = c4rAll.recordsFiltered :=
  ⟨(c4_thm c4tPos c4rPos 1 5 rfl rfl rfl).2 (by decide) (by decide),
   (c4_thm c4tAll c4rAll 7 (-1) rfl rfl rfl).1 (by decide)⟩

/-- C7: two successful requests against tables sharing the base query,
model, registry and hooks, whose decoded `columns` families agree and
whose decoded global search `value` entries agree, report the same
`recordsFiltered` — the order parameters and `start`/`length` (which may
differ arbitrarily) never affect the filtered count. -/
theorem c7_thm (t1 t2 : DataTable) (r1 r2 : Response) (s1 s2 : Decoded)
    (hmodel : t1.model = t2.model)
    (hdict : t1.columns_dict = t2.columns_dict)
    (hsf : t1.search_func = t2.search_func)
    (hcsf : t1.column_search_func = t2.column_search_func)
    (hq : t1.query = t2.query)
    (hcols : query_into_dict t1.params "columns" = query_into_dict t2.params "columns")
    (hs1 : query_into_dict t1.params "search" = Except.ok s1)
    (hs2 : query_into_dict t2.params "search" = Except.ok s2)
    (hval : List.lookup (QKey.s "value") s1 = List.lookup (QKey.s "value") s2)
    (h1 : DataTable._json t1 = Except.ok r1) (h2 : DataTable._json t2 = Except.ok r2) :
    r1.recordsFiltered = r2.recordsFiltered := by
  unfold DataTable._json at h1 h2
  obtain ⟨d1, hd1, h1⟩ := bindE_ok h1
  obtain ⟨st1, hst1, h1⟩ := bindE_ok h1
  obtain ⟨ln1, hln1, h1⟩ := bindE_ok h1
  obtain ⟨c1, hc1, h1⟩ := bindE_ok h1
  obtain ⟨o1, ho1, h1⟩ := bindE_ok h1
  obtain ⟨sr1, hsr1, h1⟩ := bindE_ok h1
  obtain ⟨q1, hq1, h1⟩ := bindE_ok h1
  obtain ⟨data1, hdata1, h1⟩ := bindE_ok h1
  injection h1 with h1
  subst h1
  obtain ⟨d2, hd2, h2⟩ := bindE_ok h2
  obtain ⟨st2, hst2, h2⟩ := bindE_ok h2
  obtain ⟨ln2, hln2, h2⟩ := bindE_ok h2
  obtain ⟨c2, hc2, h2⟩ := bindE_ok h2
  obtain ⟨o2, ho2, h2⟩ := bindE_ok h2
  obtain ⟨sr2, hsr2, h2⟩ := bindE_ok h2
  obtain ⟨q2, hq2, h2⟩ := bindE_ok h2
  obtain ⟨data2, hdata2, h2⟩ := bindE_ok h2
  injection h2 with h2
  subst h2
  have hc1' := liftPy_ok hc1
  have hc2' := liftPy_ok hc2
  rw [hc1', hc2'] at hcols
  injection hcols with hcols
  subst hcols
  have hsr1' := liftPy_ok hsr1
  rw [hs1] at hsr1'
  injection hsr1' with hsr1'
  subst hsr1'
  have hsr2' := liftPy_ok hsr2
  rw [hs2] at hsr2'
  injection hsr2' with hsr2'
  subst hsr2'
  have hq1' := liftPy_ok hq1
  have hq2' := liftPy_ok hq2
  unfold filtered_query at hq1' hq2'
  obtain ⟨qc1, hqc1, hord1⟩ := bindE_ok hq1'
  obtain ⟨qc2, hqc2, hord2⟩ := bindE_ok hq2'
  have hg : apply_global_search t1 s1 t1.query = apply_global_search t2 s2 t2.query := by
    unfold apply_global_search
    rw [hval, hsf, hq]
  have hpc := process_column_congr t1 t2 hdict hmodel hcsf
  have hfold : foldExcept (process_column t1) (apply_global_search t1 s1 t1.query) (c1.map Prod.snd)
      = foldExcept (process_column t2) (apply_global_search t2 s2 t2.query) (c1.map Prod.snd) := by
    rw [foldExcept_congr hpc, hg]
  rw [hfold, hqc2] at hqc1
  injection hqc1 with hqc1
  subst hqc1
  have hr1 := order_fold_rows t1 c1 (o1.map Prod.snd) _ _ hord1
  have hr2 := order_fold_rows t2 c1 (o2.map Prod.snd) _ _ hord2
  simp [Queryable.count, hr1, hr2]

/-- C7 witness: two concrete requests differing in `draw`, window and
order parameters but agreeing on the searches report the same filtered
count. -/
theorem c7_witness :
    ∃ r1 r2 : Response, DataTable._json c7t1 = Except.ok r1
      ∧ DataTable._json c7t2 = Except.ok r2
      ∧ r1.recordsFiltered = r2.recordsFiltered :=
  ⟨c7r1, c7r2, rfl, rfl,
   c7_thm c7t1 c7t2 c7r1 c7r2 [] [] rfl rfl rfl rfl rfl rfl rfl rfl rfl rfl rfl⟩

/-- C8: once the three integer parameters parse, a decoded column request
that is searchable with a truthy search value but whose `data` name is
not registered makes the pipeline raise: `json` surfaces a propagating
exception and never the `{"error": ...}` degradation (which is reserved
for `DataTablesError`). -/
theorem c8_thm (t : DataTable) (d s l : Int) (cols : Decoded) (dv : DVal)
    (hd : get_integer_param t.params "draw" = Except.ok d)
    (hs : get_integer_param t.params "start" = Except.ok s)
    (hl : get_integer_param t.params "length" = Except.ok l)
    (hcols : query_into_dict t.params "columns" = Except.ok cols)
    (hmem : dv ∈ cols.map Prod.snd)
    (hbad : bad_search_entry t.columns_dict dv) :
    (∃ e, DataTable.json t = JsonResult.raised e)
    ∧ ∀ m, DataTable.json t ≠ JsonResult.errorResp m := by
  have key : ∃ e, DataTable.json t = JsonResult.raised e := by
    have hfq : ∀ ords srch, ∃ e, filtered_query t cols ords srch = Except.error e := by
      intro ords srch
      obtain ⟨e, he⟩ :=
        col_fold_bad t (cols.map Prod.snd) (apply_global_search t srch t.query) dv hmem hbad
      exact ⟨e, by unfold filtered_query; rw [he]; rfl⟩
    unfold DataTable.json DataTable._json
    rw [hd, hs, hl, hcols]
    cases ho : query_into_dict t.params "order" with
    | error e => exact ⟨e, rfl⟩
    | ok ords =>
      cases hsr : query_into_dict t.params "search" with
      | error e => exact ⟨e, rfl⟩
      | ok srch =>
        obtain ⟨e, he⟩ := hfq ords srch
        refine ⟨e, ?_⟩
        simp only [liftPy, Except.bind]
        rw [he]
  obtain ⟨e, he⟩ := key
  refine ⟨⟨e, he⟩, fun m hm => ?_⟩
  rw [he] at hm
  cases hm

/-- C8 witness: the concrete request searching the unregistered column
`ghost` makes `json` surface a propagating exception, and its result is
not an error response for any message. -/
theorem c8_witness :
    (∃ e, DataTable.json c8t = JsonResult.raised e)
    ∧ ∀ m, DataTable.json c8t ≠ JsonResult.errorResp m :=
  c8_thm c8t 1 0 10 c8cols (DVal.cmap c8cm) rfl rfl rfl rfl
    (List.mem_singleton.mpr rfl)
    ⟨c8cm, [("value", Leaf.str "foo")], Leaf.str "foo", "ghost",
      rfl, rfl, rfl, rfl, rfl, rfl, rfl⟩
